import Mathlib

/-!
Verification of the session-synchronization core of the login mobile app:
the auth-state reducer (`handleAuthEvent`), the subscription hook's
refresh/clear updates, the action layer (`AuthActions`), the simulated
("custom mock") bridge, and the native bridge's session fallback.
Each definition is a shallow embedding of the corresponding TypeScript
function; machine behaviour of JavaScript (falsy strings under `||`,
optional chaining `?.`) is modelled explicitly.
-/

namespace LoginApp

/-- JS expression `o || d` for a possibly-undefined string `o`:
the empty string is falsy, so it falls through to the default. -/
def jsOrStr (o : Option String) (d : String) : String :=
  match o with
  | none => d
  | some s => if s = "" then d else s

/-- A thrown JavaScript value: either an `Error` carrying a message,
or some other (non-`Error`) value. -/
inductive JsThrown where
  | error (message : String)
  | other
deriving DecidableEq, Repr

/-- JS pattern `e instanceof Error ? e.message : d`. -/
def jsThrownMessage (e : JsThrown) (d : String) : String :=
  match e with
  | .error m => m
  | .other => d

/-- User record as fabricated / transported by the bridges
(`sub`, `id`, `email`, `nickname`, `provider`). `email` may be
undefined (the email-login body's `email` field is optional). -/
structure UserInfo where
  sub : String
  id : String
  email : Option String
  nickname : String
  provider : String
deriving DecidableEq, Repr

/-- The six `AuthStatus` tags of the event protocol. -/
inductive AuthStatus where
  | started
  | callback_received
  | success
  | error
  | token_refreshed
  | signed_out
deriving DecidableEq, Repr

/-- Payload object accompanying a status event (`data?`): each field is
optional, mirroring `{provider?, user?, error?}`. -/
structure EventData where
  provider : Option String := none
  user : Option UserInfo := none
  error : Option String := none
deriving DecidableEq, Repr

/-- `lastEvent` record of `AuthState`: status, timestamp, optional data. -/
structure LastEvent where
  status : AuthStatus
  timestamp : Nat
  data : Option EventData
deriving DecidableEq, Repr

/-- The `AuthState` snapshot managed by `useAuthState`. -/
structure AuthState where
  isLoggedIn : Bool
  isLoading : Bool
  userInfo : Option UserInfo
  isOAuthInProgress : Bool
  oauthProvider : Option String
  error : Option String
  lastEvent : Option LastEvent
deriving DecidableEq, Repr

/-- `initialAuthState`: the all-default snapshot. -/
def initialAuthState : AuthState :=
  { isLoggedIn := false
    isLoading := false
    userInfo := none
    isOAuthInProgress := false
    oauthProvider := none
    error := none
    lastEvent := none }

/-- The reducer `handleAuthEvent` of `useAuthState`: copies the previous
state, records `lastEvent`, then switches on the status tag exactly as the
TypeScript `switch` does (`data?.provider || null`, `data?.error || <generic
message>`, `if (data?.user)`). -/
def handleAuthEvent (prev : AuthState) (status : AuthStatus) (timestamp : Nat)
    (data : Option EventData) : AuthState :=
  let s := { prev with lastEvent := some ⟨status, timestamp, data⟩ }
  match status with
  | .started =>
      { s with isOAuthInProgress := true
               oauthProvider := match data.bind (·.provider) with
                 | some p => if p = "" then none else some p
                 | none => none
               isLoading := true
               error := none }
  | .callback_received => { s with isLoading := true }
  | .success =>
      { s with isLoggedIn := true
               isOAuthInProgress := false
               isLoading := false
               error := none
               userInfo := match data.bind (·.user) with
                 | some u => some u
                 | none => s.userInfo }
  | .error =>
      { s with isOAuthInProgress := false
               isLoading := false
               error := some (jsOrStr (data.bind (·.error)) "인증 오류가 발생했습니다.") }
  | .token_refreshed => s
  | .signed_out =>
      { s with isLoggedIn := false
               userInfo := none
               isOAuthInProgress := false
               isLoading := false
               error := none
               oauthProvider := none }

/-- Bridge-reported ground truth `SessionInfo`. -/
structure SessionInfo where
  isLoggedIn : Bool
  userInfo : Option UserInfo := none
deriving DecidableEq, Repr

end LoginApp

namespace LoginApp

/-- One state update applied by the `useAuthState` hook: a bridge event
through the reducer, the two updaters of `refreshSession` (the in-flight
marker and the completion), its catch-branch updater, or `clearError`. -/
inductive AuthOp where
  | event (status : AuthStatus) (timestamp : Nat) (data : Option EventData)
  | refreshStart
  | refreshComplete (session : Option SessionInfo)
  | refreshFail (e : JsThrown)
  | clearError
deriving DecidableEq, Repr

/-- Applies one hook update to the snapshot, following the four
`setAuthState` call sites of `useAuthState`. -/
def applyAuthOp (s : AuthState) : AuthOp → AuthState
  | .event status t d => handleAuthEvent s status t d
  | .refreshStart => { s with isLoading := true, error := none }
  | .refreshComplete session =>
      { s with isLoggedIn := (session.map (·.isLoggedIn)).getD false
               userInfo := session.bind (·.userInfo)
               isLoading := false
               error := none }
  | .refreshFail e =>
      { s with isLoading := false
               error := some (jsThrownMessage e "세션 조회 실패") }
  | .clearError => { s with error := none }

/-- Folds a sequence of hook updates over a snapshot. -/
def applyAuthOps (s : AuthState) (ops : List AuthOp) : AuthState :=
  ops.foldl applyAuthOp s

/-- The spec's `AuthState` invariant: logged-in implies a user record,
OAuth-in-progress implies loading. -/
def authInv (s : AuthState) : Prop :=
  (s.isLoggedIn = true → s.userInfo ≠ none) ∧
  (s.isOAuthInProgress = true → s.isLoading = true)

instance (s : AuthState) : Decidable (authInv s) := by
  unfold authInv; infer_instance

end LoginApp

namespace LoginApp

/-- Well-formedness of a bridge-reported session: if it claims logged-in it
carries a user record (true of every session the bridges of this repository
produce). -/
def wfSession (session : Option SessionInfo) : Bool :=
  match session with
  | none => true
  | some se => !se.isLoggedIn || se.userInfo.isSome

/-- Side condition on one hook update: `success` events carry a user record,
and refresh completions/failures are only applied while no OAuth flow is in
progress and (for completions) report a well-formed session. -/
def goodOp (s : AuthState) : AuthOp → Bool
  | .event .success _ d => (d.bind (·.user)).isSome
  | .refreshComplete session => wfSession session && !s.isOAuthInProgress
  | .refreshFail _ => !s.isOAuthInProgress
  | _ => true

/-- A trace of hook updates all of whose steps satisfy `goodOp` at the state
they are applied to. -/
def goodTrace (s : AuthState) : List AuthOp → Bool
  | [] => true
  | op :: rest => goodOp s op && goodTrace (applyAuthOp s op) rest

/-- An empty event-data object `{}`. -/
def emptyData : EventData := {}

/-- Substring occurrence on character lists (JS `String.prototype.includes`). -/
def strIncludesAux (pat : List Char) : List Char → Bool
  | [] => pat.isEmpty
  | c :: rest => pat.isPrefixOf (c :: rest) || strIncludesAux pat rest

/-- JS `s.includes(pat)`. -/
def strIncludes (s pat : String) : Bool :=
  strIncludesAux pat.toList s.toList

/-- A single notification attempt to a registered listener. -/
structure Delivery where
  listener : Nat
  status : AuthStatus
  data : Option EventData
deriving DecidableEq, Repr

/-- A callback scheduled with `setTimeout` by the mock bridge's `startOAuth`:
the fabricated OAuth success for `provider`, due after `delayMs`. -/
structure PendingTask where
  delayMs : Nat
  provider : String
deriving DecidableEq, Repr

/-- The closure state of one `createCustomMockBridge()` call: the listener
array, the logged-in flag, the user record, plus the not-yet-fired timers. -/
structure MockState where
  listeners : List Nat
  isLoggedIn : Bool
  userInfo : Option UserInfo
  pending : List PendingTask
deriving DecidableEq, Repr

/-- Result object of a bridge `startOAuth` call (`{success, message?}`). -/
structure StartOAuthResult where
  success : Bool
  message : Option String := none
deriving DecidableEq, Repr

/-- Result object of `authManager.logout` (`{success, message?}`). -/
structure LogoutResult where
  success : Bool
  message : Option String := none
deriving DecidableEq, Repr

/-- Broadcast of one event to every currently registered listener, in
registration order (listener exceptions are caught at the call site). -/
def emitTo (ls : List Nat) (status : AuthStatus) (data : Option EventData) :
    List Delivery :=
  ls.map fun l => ⟨l, status, data⟩

/-- The fabricated OAuth user record of the mock bridge. -/
def oauthUserInfo (provider : String) : UserInfo :=
  { sub := "mock-user-123"
    id := "mock-user-123"
    email := some "test@example.com"
    nickname := "홍길동"
    provider := provider }

/-- The user record fabricated by the mock bridge's email login. -/
def emailUserInfo (email : Option String) : UserInfo :=
  { sub := "email-user-123"
    id := "email-user-123"
    email := email
    nickname := "이메일 사용자"
    provider := "email" }

/-- Mock bridge `startOAuth`: emits `started{provider}` synchronously,
schedules the OAuth-success callback 1500 ms out, and returns
`{success: true}`; the logged-in flag and user record are untouched. -/
def mockStartOAuth (provider : String) (s : MockState) :
    MockState × List Delivery × StartOAuthResult :=
  ({ s with pending := s.pending ++ [⟨1500, provider⟩] },
   emitTo s.listeners .started (some { provider := some provider }),
   { success := true })

/-- Firing one scheduled OAuth-success callback: updates the session state
via `updateSessionState` and then emits `success{user, provider}` to the
listeners registered at firing time. -/
def firePendingTask (task : PendingTask) (s : MockState) :
    MockState × List Delivery :=
  let u := oauthUserInfo task.provider
  ({ s with isLoggedIn := true
            userInfo := some u
            pending := s.pending.erase task },
   emitTo s.listeners .success
     (some { user := some u, provider := some task.provider }))

/-- Mock bridge `signOut`: clears the flag and user record, emits
`signed_out{}`, returns `true`. -/
def mockSignOut (s : MockState) : MockState × List Delivery × Bool :=
  ({ s with isLoggedIn := false, userInfo := none },
   emitTo s.listeners .signed_out (some emptyData),
   true)

/-- Mock bridge `getSession`: returns the live internal state verbatim. -/
def mockGetSession (s : MockState) : SessionInfo :=
  { isLoggedIn := s.isLoggedIn, userInfo := s.userInfo }

/-- Parsed JSON body of an email-flow request (`email?`, `verifyCode?`). -/
structure EmailBody where
  email : Option String := none
  verifyCode : Option String := none
deriving DecidableEq, Repr

/-- An authenticated request as routed by the mock bridge: its URL and its
(already parsed) JSON body, absent bodies parsing to `{}`. -/
structure AuthRequest where
  url : String
  body : Option EmailBody := none
deriving DecidableEq, Repr

/-- HTTP-style envelope returned by the mock bridge's `callWithAuth`. -/
structure MockResponse where
  status : Nat
  ok : Bool
  message : Option String := none
deriving DecidableEq, Repr

/-- Mock bridge `callWithAuth`: routes by literal URL-substring match, in
source order — logout, request-verification, verify-code, email-login,
google-logout, then a generic success envelope. -/
def mockCallWithAuth (req : AuthRequest) (s : MockState) :
    MockState × List Delivery × MockResponse :=
  if strIncludes req.url "/api/v1/auth/members/logout" then
    ({ s with isLoggedIn := false, userInfo := none },
     emitTo s.listeners .signed_out (some emptyData),
     { status := 200, ok := true })
  else if strIncludes req.url "/api/v1/auth/email/request" then
    (s, [], { status := 200, ok := true, message := some "인증번호가 발송되었습니다." })
  else if strIncludes req.url "/api/v1/auth/email/verify" then
    if req.body.bind (·.verifyCode) = some "123456" then
      (s, [], { status := 200, ok := true, message := some "인증번호가 확인되었습니다." })
    else
      (s, [], { status := 400, ok := false, message := some "인증번호가 올바르지 않습니다." })
  else if strIncludes req.url "/api/v1/auth/members/email-login" then
    if req.body.bind (·.verifyCode) = some "123456" then
      ({ s with isLoggedIn := true
                userInfo := some (emailUserInfo (req.body.bind (·.email))) },
       emitTo s.listeners .success
         (some { user := some (emailUserInfo (req.body.bind (·.email)))
                 provider := some "email" }),
       { status := 200, ok := true })
    else
      (s, [], { status := 400, ok := false, message := some "로그인에 실패했습니다." })
  else if strIncludes req.url "/api/v1/auth/google/logout" then
    ({ s with isLoggedIn := false, userInfo := none },
     emitTo s.listeners .signed_out (some emptyData),
     { status := 200, ok := true })
  else
    (s, [], { status := 200, ok := true, message := some "Mock API 호출 성공" })

/-- The caller-invocable operations of one mock bridge instance. -/
inductive BridgeOp where
  | startOAuth (provider : String)
  | callWithAuth (req : AuthRequest)
  | signOut
  | getSession
  | addListener (l : Nat)
  | removeListener (l : Nat)
  | cleanup
deriving DecidableEq, Repr

/-- State transition and notifications of one bridge operation
(`addAuthStatusListener` pushes, `removeAuthStatusListener` splices out the
first identical entry, `cleanup` clears listeners and session state but
cancels no timer). -/
def applyBridgeOp (op : BridgeOp) (s : MockState) : MockState × List Delivery :=
  match op with
  | .startOAuth p => ((mockStartOAuth p s).1, (mockStartOAuth p s).2.1)
  | .callWithAuth req => ((mockCallWithAuth req s).1, (mockCallWithAuth req s).2.1)
  | .signOut => ((mockSignOut s).1, (mockSignOut s).2.1)
  | .getSession => (s, [])
  | .addListener l => ({ s with listeners := s.listeners ++ [l] }, [])
  | .removeListener l => ({ s with listeners := s.listeners.erase l }, [])
  | .cleanup => ({ s with listeners := [], isLoggedIn := false, userInfo := none }, [])

/-- A world of independently created bridge instances, indexed by position;
each `createCustomMockBridge()` call owns its own closure variables. -/
def applyWorldOp (w : List MockState) (iop : Nat × BridgeOp) :
    List MockState × List (Nat × Delivery) :=
  match w[iop.1]? with
  | none => (w, [])
  | some s =>
      (w.set iop.1 (applyBridgeOp iop.2 s).1,
       ((applyBridgeOp iop.2 s).2).map fun d => (iop.1, d))

/-- Applies an interleaved sequence of operations, each targeted at one
instance, collecting all notifications tagged with their instance. -/
def applyWorldOps (w : List MockState) :
    List (Nat × BridgeOp) → List MockState × List (Nat × Delivery)
  | [] => (w, [])
  | iop :: rest =>
      ((applyWorldOps (applyWorldOp w iop).1 rest).1,
       (applyWorldOp w iop).2 ++ (applyWorldOps (applyWorldOp w iop).1 rest).2)

/-- Outcome of an awaited bridge/auth-manager call: a resolved value or a
thrown one. -/
inductive BridgeOutcome (α : Type) where
  | ok (a : α)
  | thrown (e : JsThrown)
deriving DecidableEq, Repr

/-- A `Partial<AuthState>` as passed to `onStateChange`: each field is
present (`some`) or absent (`none`). -/
structure PartialAuthState where
  isLoggedIn : Option Bool := none
  isLoading : Option Bool := none
  userInfo : Option (Option UserInfo) := none
  isOAuthInProgress : Option Bool := none
  oauthProvider : Option (Option String) := none
  error : Option (Option String) := none
deriving DecidableEq, Repr

/-- `AuthActions.startOAuth`: the optimistic notification, then — depending
on the bridge outcome — success, a bridge-reported failure notification, or
the catch-branch notification; returns the boolean result paired with the
notifications in order. -/
def authActionsStartOAuth (provider : String)
    (outcome : BridgeOutcome StartOAuthResult) : Bool × List PartialAuthState :=
  let first : PartialAuthState :=
    { isLoading := some true, error := some none,
      isOAuthInProgress := some true, oauthProvider := some (some provider) }
  match outcome with
  | .ok r =>
      if r.success then (true, [first])
      else
        (false, [first,
          { isLoading := some false, isOAuthInProgress := some false,
            error := some (some (jsOrStr r.message "OAuth 시작 실패")) }])
  | .thrown e =>
      (false, [first,
        { isLoading := some false, isOAuthInProgress := some false,
          error := some (some (jsThrownMessage e "OAuth 로그인 실패")) }])

/-- `AuthActions.signOut`: loading notification, then the success, failure
or catch-branch notification. -/
def authActionsSignOut (outcome : BridgeOutcome LogoutResult) :
    Bool × List PartialAuthState :=
  let first : PartialAuthState := { isLoading := some true, error := some none }
  match outcome with
  | .ok r =>
      if r.success then
        (true, [first,
          { isLoggedIn := some false, userInfo := some none,
            isLoading := some false, error := some none }])
      else
        (false, [first,
          { isLoading := some false,
            error := some (some (jsOrStr r.message "로그아웃 실패")) }])
  | .thrown e =>
      (false, [first,
        { isLoading := some false,
          error := some (some (jsThrownMessage e "로그아웃 실패")) }])

/-- `AuthActions.refreshSession`: on success one notification republishing
`isLoggedIn`/`userInfo`; on a thrown failure a single notification carrying
only the error message. -/
def authActionsRefreshSession (outcome : BridgeOutcome (Option SessionInfo)) :
    Option SessionInfo × List PartialAuthState :=
  match outcome with
  | .ok session =>
      (session, [{ isLoggedIn := some ((session.map (·.isLoggedIn)).getD false),
                   userInfo := some (session.bind (·.userInfo)) }])
  | .thrown e =>
      (none, [{ error := some (some (jsThrownMessage e "세션 조회 실패")) }])

/-- Environment of `NativeAuthBridge.getSession`: the native module may be
absent, or present and its `getSession` call resolves or throws. -/
inductive NativeModuleEnv where
  | absent
  | present (result : BridgeOutcome SessionInfo)
deriving DecidableEq, Repr

/-- `NativeAuthBridge.getSession`: the try-block throws when the module is
absent or the native call throws; the catch-all returns
`{isLoggedIn: false}`. -/
def nativeBridgeGetSession : NativeModuleEnv → SessionInfo
  | .absent => { isLoggedIn := false, userInfo := none }
  | .present (.ok session) => session
  | .present (.thrown _) => { isLoggedIn := false, userInfo := none }

end LoginApp

/-- C1: applying the reducer to a `signed_out` event yields, from any prior
state, a state with `isLoggedIn = false`, `userInfo = none`,
`isOAuthInProgress = false`, `isLoading = false` and the error cleared, and
applying `signed_out` again is idempotent (an absorbing sink). -/
theorem LoginApp.c1_signed_out_sink (s : LoginApp.AuthState) (t : Nat)
    (d : Option LoginApp.EventData) :
    (LoginApp.handleAuthEvent s .signed_out t d).isLoggedIn = false ∧
    (LoginApp.handleAuthEvent s .signed_out t d).userInfo = none ∧
    (LoginApp.handleAuthEvent s .signed_out t d).isOAuthInProgress = false ∧
    (LoginApp.handleAuthEvent s .signed_out t d).isLoading = false ∧
    (LoginApp.handleAuthEvent s .signed_out t d).error = none ∧
    LoginApp.handleAuthEvent (LoginApp.handleAuthEvent s .signed_out t d)
      .signed_out t d = LoginApp.handleAuthEvent s .signed_out t d := by
  refine ⟨?_, ?_, ?_, ?_, ?_, ?_⟩ <;> simp [LoginApp.handleAuthEvent]

/-- Helper: one good hook update preserves the `AuthState` invariant. -/
theorem LoginApp.authInv_applyAuthOp {s : LoginApp.AuthState} {op : LoginApp.AuthOp}
    (hs : LoginApp.authInv s) (hop : LoginApp.goodOp s op = true) :
    LoginApp.authInv (LoginApp.applyAuthOp s op) := by
  obtain ⟨h1, h2⟩ := hs
  cases op with
  | event status t d =>
      cases status with
      | started =>
          refine ⟨fun h => ?_, fun _ => ?_⟩ <;>
            simp_all [LoginApp.applyAuthOp, LoginApp.handleAuthEvent]
      | callback_received =>
          refine ⟨fun h => ?_, fun _ => ?_⟩ <;>
            simp_all [LoginApp.applyAuthOp, LoginApp.handleAuthEvent]
      | success =>
          simp only [LoginApp.goodOp] at hop
          refine ⟨fun _ => ?_, fun h => ?_⟩
          · simp only [LoginApp.applyAuthOp, LoginApp.handleAuthEvent]
            cases hdu : d.bind (·.user) with
            | some u => simp
            | none => rw [hdu] at hop; simp at hop
          · simp [LoginApp.applyAuthOp, LoginApp.handleAuthEvent] at h
      | error =>
          refine ⟨fun h => ?_, fun h => ?_⟩
          · simp_all [LoginApp.applyAuthOp, LoginApp.handleAuthEvent]
          · simp [LoginApp.applyAuthOp, LoginApp.handleAuthEvent] at h
      | token_refreshed =>
          refine ⟨fun h => ?_, fun h => ?_⟩ <;>
            simp_all [LoginApp.applyAuthOp, LoginApp.handleAuthEvent]
      | signed_out =>
          refine ⟨fun h => ?_, fun h => ?_⟩ <;>
            simp_all [LoginApp.applyAuthOp, LoginApp.handleAuthEvent]
  | refreshStart =>
      refine ⟨fun h => ?_, fun _ => ?_⟩ <;>
        simp_all [LoginApp.applyAuthOp]
  | refreshComplete session =>
      simp only [LoginApp.goodOp, Bool.and_eq_true] at hop
      refine ⟨fun h => ?_, fun h => ?_⟩
      · cases session with
        | none => simp [LoginApp.applyAuthOp] at h
        | some se =>
            simp only [LoginApp.applyAuthOp, Option.map_some', Option.getD_some] at h
            simp only [LoginApp.wfSession, h, Bool.not_true, Bool.false_or] at hop
            have hse : se.userInfo ≠ none := Option.isSome_iff_ne_none.mp hop.1
            simpa [LoginApp.applyAuthOp] using hse
      · simp only [LoginApp.applyAuthOp] at h
        exact absurd h (by simpa using hop.2)
  | refreshFail e =>
      simp only [LoginApp.goodOp] at hop
      refine ⟨fun h => ?_, fun h => ?_⟩
      · simp_all [LoginApp.applyAuthOp]
      · simp only [LoginApp.applyAuthOp] at h
        exact absurd h (by simpa using hop)
  | clearError =>
      refine ⟨fun h => ?_, fun h => ?_⟩ <;>
        simp_all [LoginApp.applyAuthOp]

/-- Helper: a good trace of hook updates preserves the invariant. -/
theorem LoginApp.authInv_applyAuthOps {s : LoginApp.AuthState}
    (hs : LoginApp.authInv s) :
    ∀ ops : List LoginApp.AuthOp, LoginApp.goodTrace s ops = true →
      LoginApp.authInv (LoginApp.applyAuthOps s ops) := by
  intro ops
  induction ops generalizing s with
  | nil => intro _; simpa [LoginApp.applyAuthOps] using hs
  | cons op rest ih =>
      intro h
      simp only [LoginApp.goodTrace, Bool.and_eq_true] at h
      have h1 := LoginApp.authInv_applyAuthOp hs h.1
      simpa [LoginApp.applyAuthOps] using ih h1 h.2

/-- C2 counterexample: two concrete update sequences, each starting from the
all-default snapshot and using only reducer events, refreshSession updates
and clearError calls, reach states violating the claimed invariant — a
refreshSession completion during an in-progress OAuth flow leaves
`isOAuthInProgress = true` with `isLoading = false`, and a `success` event
carrying no user record leaves `isLoggedIn = true` with `userInfo = none`. -/
theorem LoginApp.c2_counterexample :
    ¬ LoginApp.authInv (LoginApp.applyAuthOps LoginApp.initialAuthState
        [.event .started 0 (some { provider := some "google" }),
         .refreshComplete (some { isLoggedIn := false })]) ∧
    ¬ LoginApp.authInv (LoginApp.applyAuthOps LoginApp.initialAuthState
        [.event .success 0 (some { provider := some "google" })]) := by
  constructor <;> decide

/-- C2 (amended): every state reachable from the all-default snapshot by
reducer events whose `success` events carry a user record, refreshSession
updates applied only while no OAuth flow is in progress (completions
reporting a session that carries a user record whenever it claims
logged-in), and clearError calls, satisfies the invariant
`isLoggedIn → userInfo ≠ none` and `isOAuthInProgress → isLoading`. -/
theorem LoginApp.c2_invariant_good_traces (ops : List LoginApp.AuthOp)
    (h : LoginApp.goodTrace LoginApp.initialAuthState ops = true) :
    LoginApp.authInv (LoginApp.applyAuthOps LoginApp.initialAuthState ops) :=
  LoginApp.authInv_applyAuthOps (by decide) ops h

/-- C2 witness: a concrete good trace through OAuth start, success, refresh
and clearError whose final state satisfies the invariant. -/
theorem LoginApp.c2_invariant_good_traces_witness :
    LoginApp.authInv (LoginApp.applyAuthOps LoginApp.initialAuthState
      [.event .started 0 (some { provider := some "google" }),
       .event .success 1 (some { user := some (LoginApp.oauthUserInfo "google")
                                 provider := some "google" }),
       .refreshStart,
       .refreshComplete (some { isLoggedIn := true
                                userInfo := some (LoginApp.oauthUserInfo "google") }),
       .clearError]) :=
  LoginApp.c2_invariant_good_traces _ (by decide)

/-- C3: on the simulated bridge, `startOAuth(provider)` synchronously emits
`started{provider}` to every registered listener and returns
`{success: true}`; it leaves the logged-in flag and user record untouched —
so `getSession` invoked synchronously afterwards reports the pre-call
session — and only schedules the 1500 ms success callback, whose firing is
what updates the session state and emits `success{user, provider}`. -/
theorem LoginApp.c3_startOAuth_deferred (s : LoginApp.MockState) (p : String) :
    (LoginApp.mockStartOAuth p s).2.2 = { success := true } ∧
    (LoginApp.mockStartOAuth p s).2.1 =
      s.listeners.map (fun l => ⟨l, .started, some { provider := some p }⟩) ∧
    (LoginApp.mockStartOAuth p s).1.isLoggedIn = s.isLoggedIn ∧
    (LoginApp.mockStartOAuth p s).1.userInfo = s.userInfo ∧
    LoginApp.mockGetSession (LoginApp.mockStartOAuth p s).1 =
      LoginApp.mockGetSession s ∧
    (LoginApp.mockStartOAuth p s).1.pending = s.pending ++ [⟨1500, p⟩] ∧
    (LoginApp.firePendingTask ⟨1500, p⟩ (LoginApp.mockStartOAuth p s).1).1.isLoggedIn
      = true ∧
    (LoginApp.firePendingTask ⟨1500, p⟩ (LoginApp.mockStartOAuth p s).1).1.userInfo
      = some (LoginApp.oauthUserInfo p) ∧
    (LoginApp.firePendingTask ⟨1500, p⟩ (LoginApp.mockStartOAuth p s).1).2 =
      s.listeners.map (fun l => ⟨l, .success,
        some { user := some (LoginApp.oauthUserInfo p), provider := some p }⟩) := by
  refine ⟨rfl, rfl, rfl, rfl, rfl, rfl, rfl, rfl, rfl⟩

/-- C9: `NativeAuthBridge.getSession` swallows every failure — when the
native module is absent or the underlying native `getSession` call throws,
it returns the logged-out session `{isLoggedIn: false}` instead of
propagating. -/
theorem LoginApp.c9_getSession_fallback (env : LoginApp.NativeModuleEnv)
    (h : env = .absent ∨ ∃ e, env = .present (.thrown e)) :
    LoginApp.nativeBridgeGetSession env =
      { isLoggedIn := false, userInfo := none } := by
  rcases h with h | ⟨e, h⟩ <;> subst h <;> rfl

/-- C9 witness: the absent-module case concretely returns the logged-out
session. -/
theorem LoginApp.c9_getSession_fallback_witness :
    LoginApp.nativeBridgeGetSession .absent =
      { isLoggedIn := false, userInfo := none } :=
  LoginApp.c9_getSession_fallback .absent (Or.inl rfl)

/-- C10: when the hook's `refreshSession` fails (the awaited
`getCurrentSession` throws), the composite of its in-flight update and its
catch-branch update leaves `isLoggedIn`, `userInfo`, `isOAuthInProgress`,
`oauthProvider` and `lastEvent` exactly as in the prior state, and modifies
only `isLoading` (to `false`) and `error` (to the failure's message — the
thrown `Error`'s message, or the generic lookup-failure text otherwise). -/
theorem LoginApp.c10_refresh_failure_frame (s : LoginApp.AuthState)
    (e : LoginApp.JsThrown) :
    (LoginApp.applyAuthOps s [.refreshStart, .refreshFail e]).isLoggedIn
      = s.isLoggedIn ∧
    (LoginApp.applyAuthOps s [.refreshStart, .refreshFail e]).userInfo
      = s.userInfo ∧
    (LoginApp.applyAuthOps s [.refreshStart, .refreshFail e]).isOAuthInProgress
      = s.isOAuthInProgress ∧
    (LoginApp.applyAuthOps s [.refreshStart, .refreshFail e]).oauthProvider
      = s.oauthProvider ∧
    (LoginApp.applyAuthOps s [.refreshStart, .refreshFail e]).lastEvent
      = s.lastEvent ∧
    (LoginApp.applyAuthOps s [.refreshStart, .refreshFail e]).isLoading
      = false ∧
    (LoginApp.applyAuthOps s [.refreshStart, .refreshFail e]).error
      = some (LoginApp.jsThrownMessage e "세션 조회 실패") := by
  refine ⟨rfl, rfl, rfl, rfl, rfl, rfl, rfl⟩

/-- Helper: the logout path matches itself. -/
theorem LoginApp.route_logout_self :
    LoginApp.strIncludes "/api/v1/auth/members/logout" "/api/v1/auth/members/logout"
      = true := by decide

/-- Helper: route facts for the request-verification URL. -/
theorem LoginApp.route_request :
    LoginApp.strIncludes "/api/v1/auth/email/request" "/api/v1/auth/members/logout"
      = false ∧
    LoginApp.strIncludes "/api/v1/auth/email/request" "/api/v1/auth/email/request"
      = true := by decide

/-- Helper: route facts for the verify-code URL. -/
theorem LoginApp.route_verify :
    LoginApp.strIncludes "/api/v1/auth/email/verify" "/api/v1/auth/members/logout"
      = false ∧
    LoginApp.strIncludes "/api/v1/auth/email/verify" "/api/v1/auth/email/request"
      = false ∧
    LoginApp.strIncludes "/api/v1/auth/email/verify" "/api/v1/auth/email/verify"
      = true := by decide

/-- Helper: route facts for the email-login URL. -/
theorem LoginApp.route_login :
    LoginApp.strIncludes "/api/v1/auth/members/email-login" "/api/v1/auth/members/logout"
      = false ∧
    LoginApp.strIncludes "/api/v1/auth/members/email-login" "/api/v1/auth/email/request"
      = false ∧
    LoginApp.strIncludes "/api/v1/auth/members/email-login" "/api/v1/auth/email/verify"
      = false ∧
    LoginApp.strIncludes "/api/v1/auth/members/email-login" "/api/v1/auth/members/email-login"
      = true := by decide

/-- C5: on the simulated bridge, signing out is idempotent from every prior
state, logged-in included — two consecutive `signOut` calls both return
`true`, both emit `signed_out{}` to every registered listener, and the
second leaves the state exactly as the first (flag and record cleared);
calling the logout endpoint — in particular while already logged out, since
`s` ranges over logged-out states too — still returns a success response,
still emits `signed_out{}`, and the internal state ends up cleared. -/
theorem LoginApp.c5_signOut_idempotent (s : LoginApp.MockState) :
    (LoginApp.mockSignOut s).2.2 = true ∧
    (LoginApp.mockSignOut (LoginApp.mockSignOut s).1).2.2 = true ∧
    (LoginApp.mockSignOut s).2.1 =
      s.listeners.map (fun l => ⟨l, .signed_out, some LoginApp.emptyData⟩) ∧
    (LoginApp.mockSignOut (LoginApp.mockSignOut s).1).2.1 =
      s.listeners.map (fun l => ⟨l, .signed_out, some LoginApp.emptyData⟩) ∧
    (LoginApp.mockSignOut (LoginApp.mockSignOut s).1).1 =
      (LoginApp.mockSignOut s).1 ∧
    (LoginApp.mockSignOut s).1.isLoggedIn = false ∧
    (LoginApp.mockSignOut s).1.userInfo = none ∧
    (LoginApp.mockCallWithAuth ⟨"/api/v1/auth/members/logout", none⟩ s).2.2.ok
      = true ∧
    (LoginApp.mockCallWithAuth ⟨"/api/v1/auth/members/logout", none⟩ s).2.1 =
      s.listeners.map (fun l => ⟨l, .signed_out, some LoginApp.emptyData⟩) ∧
    (LoginApp.mockCallWithAuth ⟨"/api/v1/auth/members/logout", none⟩ s).1.isLoggedIn
      = false ∧
    (LoginApp.mockCallWithAuth ⟨"/api/v1/auth/members/logout", none⟩ s).1.userInfo
      = none := by
  refine ⟨rfl, rfl, rfl, rfl, rfl, rfl, rfl, ?_, ?_, ?_, ?_⟩ <;>
    simp [LoginApp.mockCallWithAuth, LoginApp.route_logout_self, LoginApp.emitTo]

/-- C6: simulated-bridge authenticated-call routing — a request-verification
call always returns success with no event and no state change; a verify-code
call succeeds exactly when the body's `verifyCode` is `"123456"`, never
emits and never changes state; an email-login call succeeds exactly when the
code is `"123456"`, and on a match sets the internal logged-in state to the
fabricated email user and emits a `success` event to every listener, while
on a mismatch it returns an `ok: false` response, emits nothing and leaves
the state untouched. -/
theorem LoginApp.c6_email_routing (s : LoginApp.MockState)
    (b : Option LoginApp.EmailBody) :
    (LoginApp.mockCallWithAuth ⟨"/api/v1/auth/email/request", b⟩ s).2.2.ok = true ∧
    (LoginApp.mockCallWithAuth ⟨"/api/v1/auth/email/request", b⟩ s).2.1 = [] ∧
    (LoginApp.mockCallWithAuth ⟨"/api/v1/auth/email/request", b⟩ s).1 = s ∧
    ((LoginApp.mockCallWithAuth ⟨"/api/v1/auth/email/verify", b⟩ s).2.2.ok = true ↔
      b.bind (·.verifyCode) = some "123456") ∧
    (LoginApp.mockCallWithAuth ⟨"/api/v1/auth/email/verify", b⟩ s).2.1 = [] ∧
    (LoginApp.mockCallWithAuth ⟨"/api/v1/auth/email/verify", b⟩ s).1 = s ∧
    ((LoginApp.mockCallWithAuth ⟨"/api/v1/auth/members/email-login", b⟩ s).2.2.ok
        = true ↔ b.bind (·.verifyCode) = some "123456") ∧
    (LoginApp.mockCallWithAuth ⟨"/api/v1/auth/members/email-login", b⟩ s).1 =
      (if b.bind (·.verifyCode) = some "123456" then
        { s with isLoggedIn := true
                 userInfo := some (LoginApp.emailUserInfo (b.bind (·.email))) }
       else s) ∧
    (LoginApp.mockCallWithAuth ⟨"/api/v1/auth/members/email-login", b⟩ s).2.1 =
      (if b.bind (·.verifyCode) = some "123456" then
        s.listeners.map (fun l => ⟨l, .success,
          some { user := some (LoginApp.emailUserInfo (b.bind (·.email)))
                 provider := some "email" }⟩)
       else []) := by
  by_cases hc : b.bind (·.verifyCode) = some "123456" <;>
    simp [LoginApp.mockCallWithAuth, LoginApp.route_request.1,
      LoginApp.route_request.2, LoginApp.route_verify.1, LoginApp.route_verify.2.1,
      LoginApp.route_verify.2.2, LoginApp.route_login.1, LoginApp.route_login.2.1,
      LoginApp.route_login.2.2.1, LoginApp.route_login.2.2.2,
      LoginApp.emitTo, hc]

/-- Helper: every bridge operation only ever appends to the scheduled-task
queue; nothing a caller can invoke removes a pending OAuth-success timer. -/
theorem LoginApp.applyBridgeOp_pending_extends (op : LoginApp.BridgeOp)
    (s : LoginApp.MockState) :
    ∃ ts, (LoginApp.applyBridgeOp op s).1.pending = s.pending ++ ts := by
  cases op with
  | startOAuth p => exact ⟨[⟨1500, p⟩], rfl⟩
  | callWithAuth req =>
      refine ⟨[], ?_⟩
      simp only [LoginApp.applyBridgeOp, LoginApp.mockCallWithAuth]
      split_ifs <;> simp
  | signOut => exact ⟨[], by simp [LoginApp.applyBridgeOp, LoginApp.mockSignOut]⟩
  | getSession => exact ⟨[], by simp [LoginApp.applyBridgeOp]⟩
  | addListener l => exact ⟨[], by simp [LoginApp.applyBridgeOp]⟩
  | removeListener l => exact ⟨[], by simp [LoginApp.applyBridgeOp]⟩
  | cleanup => exact ⟨[], by simp [LoginApp.applyBridgeOp]⟩

/-- C7: a fabricated OAuth success scheduled by `startOAuth` survives a
subsequent `signOut` (no caller-invocable operation ever shrinks the task
queue), and when it fires it logs the bridge back in with the fabricated
user and emits `success`; the reducer applies that late event at face value,
yielding `isLoggedIn = true` with the fabricated user from any prior
state. -/
theorem LoginApp.c7_late_success_resurrects (s : LoginApp.MockState)
    (p : String) (a : LoginApp.AuthState) (t : Nat) (op : LoginApp.BridgeOp) :
    ((LoginApp.mockSignOut (LoginApp.mockStartOAuth p s).1).1).pending =
      s.pending ++ [⟨1500, p⟩] ∧
    (LoginApp.firePendingTask ⟨1500, p⟩
        (LoginApp.mockSignOut (LoginApp.mockStartOAuth p s).1).1).1.isLoggedIn
      = true ∧
    (LoginApp.firePendingTask ⟨1500, p⟩
        (LoginApp.mockSignOut (LoginApp.mockStartOAuth p s).1).1).1.userInfo
      = some (LoginApp.oauthUserInfo p) ∧
    (LoginApp.handleAuthEvent a .success t
        (some { user := some (LoginApp.oauthUserInfo p)
                provider := some p })).isLoggedIn = true ∧
    (LoginApp.handleAuthEvent a .success t
        (some { user := some (LoginApp.oauthUserInfo p)
                provider := some p })).userInfo
      = some (LoginApp.oauthUserInfo p) ∧
    (∃ ts, (LoginApp.applyBridgeOp op s).1.pending = s.pending ++ ts) :=
  ⟨rfl, rfl, rfl, rfl, rfl, LoginApp.applyBridgeOp_pending_extends op s⟩

/-- Helper: every notification produced by a bridge operation goes to a
listener registered on that same instance at dispatch time. -/
theorem LoginApp.applyBridgeOp_deliveries_local (op : LoginApp.BridgeOp)
    (s : LoginApp.MockState) :
    ∀ d ∈ (LoginApp.applyBridgeOp op s).2, d.listener ∈ s.listeners := by
  intro d hd
  cases op with
  | startOAuth p =>
      simp only [LoginApp.applyBridgeOp, LoginApp.mockStartOAuth,
        LoginApp.emitTo, List.mem_map] at hd
      obtain ⟨l, hl, rfl⟩ := hd
      exact hl
  | callWithAuth req =>
      simp only [LoginApp.applyBridgeOp, LoginApp.mockCallWithAuth] at hd
      split_ifs at hd <;>
        simp only [LoginApp.emitTo, List.mem_map, List.not_mem_nil] at hd <;>
        try exact hd.elim
      all_goals (obtain ⟨l, hl, rfl⟩ := hd; exact hl)
  | signOut =>
      simp only [LoginApp.applyBridgeOp, LoginApp.mockSignOut,
        LoginApp.emitTo, List.mem_map] at hd
      obtain ⟨l, hl, rfl⟩ := hd
      exact hl
  | getSession => simp [LoginApp.applyBridgeOp] at hd
  | addListener l => simp [LoginApp.applyBridgeOp] at hd
  | removeListener l => simp [LoginApp.applyBridgeOp] at hd
  | cleanup => simp [LoginApp.applyBridgeOp] at hd

/-- Helper: an operation targeted at one instance leaves every other
instance of the world untouched. -/
theorem LoginApp.applyWorldOp_frame (w : List LoginApp.MockState)
    (iop : Nat × LoginApp.BridgeOp) (j : Nat) (hij : iop.1 ≠ j) :
    (LoginApp.applyWorldOp w iop).1[j]? = w[j]? := by
  unfold LoginApp.applyWorldOp
  cases hw : w[iop.1]? with
  | none => rfl
  | some s => simp [List.getElem?_set_ne hij]

/-- Helper: a sequence of operations none of which targets instance `j`
leaves instance `j` untouched. -/
theorem LoginApp.applyWorldOps_frame (ops : List (Nat × LoginApp.BridgeOp)) :
    ∀ (w : List LoginApp.MockState) (j : Nat),
      (∀ iop ∈ ops, iop.1 ≠ j) →
      (LoginApp.applyWorldOps w ops).1[j]? = w[j]? := by
  induction ops with
  | nil => intro w j _; rfl
  | cons iop rest ih =>
      intro w j hj
      have h2 : (LoginApp.applyWorldOps w (iop :: rest)).1 =
          (LoginApp.applyWorldOps (LoginApp.applyWorldOp w iop).1 rest).1 := rfl
      rw [h2, ih _ j (fun x hx => hj x (List.mem_cons_of_mem _ hx)),
        LoginApp.applyWorldOp_frame w iop j (hj iop (List.mem_cons_self _ _))]

/-- Helper: every notification of a sequence is tagged with the instance of
the operation that produced it. -/
theorem LoginApp.applyWorldOps_deliveries_tagged
    (ops : List (Nat × LoginApp.BridgeOp)) :
    ∀ (w : List LoginApp.MockState) (j : Nat),
      (∀ iop ∈ ops, iop.1 ≠ j) →
      ∀ x ∈ (LoginApp.applyWorldOps w ops).2, x.1 ≠ j := by
  induction ops with
  | nil => intro w j _ x hx; simp [LoginApp.applyWorldOps] at hx
  | cons iop rest ih =>
      intro w j hj x hx
      have h2 : (LoginApp.applyWorldOps w (iop :: rest)).2 =
          (LoginApp.applyWorldOp w iop).2 ++
            (LoginApp.applyWorldOps (LoginApp.applyWorldOp w iop).1 rest).2 := rfl
      rw [h2, List.mem_append] at hx
      rcases hx with hx | hx
      · unfold LoginApp.applyWorldOp at hx
        rcases hw : w[iop.1]? with _ | s
        · rw [hw] at hx; simp at hx
        · rw [hw] at hx
          simp only [List.mem_map] at hx
          obtain ⟨d, _, rfl⟩ := hx
          exact hj iop (List.mem_cons_self _ _)
      · exact ih _ j (fun y hy => hj y (List.mem_cons_of_mem _ hy)) x hx

/-- C8: bridge instances created by separate `createCustomMockBridge` calls
are fully isolated — over any interleaved sequence of operations none of
which targets instance `j`, instance `j`'s internal state (logged-in flag,
user record, listeners, timers) is unchanged and no produced notification is
tagged for instance `j`; moreover any single operation on instance `i`
notifies only listeners registered on instance `i` itself. -/
theorem LoginApp.c8_instance_isolation (w : List LoginApp.MockState)
    (ops : List (Nat × LoginApp.BridgeOp)) (j : Nat)
    (hj : ∀ iop ∈ ops, iop.1 ≠ j) :
    (LoginApp.applyWorldOps w ops).1[j]? = w[j]? ∧
    (∀ x ∈ (LoginApp.applyWorldOps w ops).2, x.1 ≠ j) ∧
    (∀ (i : Nat) (op : LoginApp.BridgeOp) (x : Nat × LoginApp.Delivery),
      x ∈ (LoginApp.applyWorldOp w (i, op)).2 →
      x.1 = i ∧ ∃ s, w[i]? = some s ∧ x.2.listener ∈ s.listeners) := by
  refine ⟨LoginApp.applyWorldOps_frame ops w j hj,
    LoginApp.applyWorldOps_deliveries_tagged ops w j hj, ?_⟩
  intro i op x hx
  unfold LoginApp.applyWorldOp at hx
  rcases hw : w[i]? with _ | s
  · rw [hw] at hx; simp at hx
  · rw [hw] at hx
    simp only [List.mem_map] at hx
    obtain ⟨d, hd, rfl⟩ := hx
    exact ⟨rfl, s, rfl, LoginApp.applyBridgeOp_deliveries_local op s d hd⟩

/-- C8 witness: two concrete instances, a sequence of operations on instance
0 only, and the check that instance 1 is untouched. -/
theorem LoginApp.c8_instance_isolation_witness :
    (LoginApp.applyWorldOps
      [⟨[0], false, none, []⟩, ⟨[7], false, none, []⟩]
      [(0, .startOAuth "google"),
       (0, .callWithAuth ⟨"/api/v1/auth/email/request", none⟩),
       (0, .signOut)]).1[1]? =
      ([⟨[0], false, none, []⟩, ⟨[7], false, none, []⟩] :
        List LoginApp.MockState)[1]? :=
  (LoginApp.c8_instance_isolation
    [⟨[0], false, none, []⟩, ⟨[7], false, none, []⟩]
    [(0, .startOAuth "google"),
     (0, .callWithAuth ⟨"/api/v1/auth/email/request", none⟩),
     (0, .signOut)] 1 (by decide)).1

/-- Helper: JS `o || d` never yields the empty string when the default is
non-empty. -/
theorem LoginApp.jsOrStr_ne_empty (o : Option String) (d : String)
    (hd : d ≠ "") : LoginApp.jsOrStr o d ≠ "" := by
  cases o with
  | none => simpa [LoginApp.jsOrStr] using hd
  | some s =>
      by_cases hs : s = "" <;> simp [LoginApp.jsOrStr, hs, hd]

/-- Helper: with a non-empty default, `e instanceof Error ? e.message : d`
is empty only for an `Error` whose own message is empty. -/
theorem LoginApp.jsThrownMessage_empty (e : LoginApp.JsThrown) (d : String)
    (hd : d ≠ "") (h : LoginApp.jsThrownMessage e d = "") : e = .error "" := by
  cases e with
  | error m => simp only [LoginApp.jsThrownMessage] at h; rw [h]
  | other => exact absurd h hd

/-- C4 counterexample: the claim fails at two concrete failing outcomes —
`AuthActions.refreshSession` with `getCurrentSession` throwing
`Error("boom")` notifies only the error field, never setting
`isLoading = false`; and `AuthActions.startOAuth` with a thrown
`Error("")` notifies an empty error message. -/
theorem LoginApp.c4_counterexample :
    (LoginApp.authActionsRefreshSession (.thrown (.error "boom"))).2 =
      [{ error := some (some "boom") }] ∧
    (∀ n ∈ (LoginApp.authActionsRefreshSession (.thrown (.error "boom"))).2,
      n.isLoading ≠ some false) ∧
    (LoginApp.authActionsStartOAuth "google" (.thrown (.error ""))).2.getLast? =
      some { isLoading := some false, isOAuthInProgress := some false,
             error := some (some "") } := by
  refine ⟨rfl, ?_, rfl⟩
  decide

/-- C4 (amended): for `AuthActions.startOAuth` and `AuthActions.signOut`,
every failing outcome notifies, as its last state change, `isLoading =
false` (and for startOAuth a cleared in-progress flag) together with an
error message; on a bridge-reported failure that message is always
non-empty, while on a thrown exception it is the exception's message — empty
only when a thrown `Error` itself carries an empty message.
`AuthActions.refreshSession` failure notifies only the error message
(the same proviso applies) and does not mention `isLoading` at all. -/
theorem LoginApp.c4_failure_notifications (p : String)
    (r : LoginApp.StartOAuthResult) (r2 : LoginApp.LogoutResult)
    (e e2 e3 : LoginApp.JsThrown)
    (hr : r.success = false) (hr2 : r2.success = false) :
    ((LoginApp.authActionsStartOAuth p (.ok r)).2.getLast? =
        some { isLoading := some false, isOAuthInProgress := some false,
               error := some (some (LoginApp.jsOrStr r.message "OAuth 시작 실패")) } ∧
      LoginApp.jsOrStr r.message "OAuth 시작 실패" ≠ "") ∧
    ((LoginApp.authActionsStartOAuth p (.thrown e)).2.getLast? =
        some { isLoading := some false, isOAuthInProgress := some false,
               error := some (some (LoginApp.jsThrownMessage e "OAuth 로그인 실패")) } ∧
      (LoginApp.jsThrownMessage e "OAuth 로그인 실패" = "" → e = .error "")) ∧
    ((LoginApp.authActionsSignOut (.ok r2)).2.getLast? =
        some { isLoading := some false,
               error := some (some (LoginApp.jsOrStr r2.message "로그아웃 실패")) } ∧
      LoginApp.jsOrStr r2.message "로그아웃 실패" ≠ "") ∧
    ((LoginApp.authActionsSignOut (.thrown e2)).2.getLast? =
        some { isLoading := some false,
               error := some (some (LoginApp.jsThrownMessage e2 "로그아웃 실패")) } ∧
      (LoginApp.jsThrownMessage e2 "로그아웃 실패" = "" → e2 = .error "")) ∧
    ((LoginApp.authActionsRefreshSession (.thrown e3)).2 =
        [{ error := some (some (LoginApp.jsThrownMessage e3 "세션 조회 실패")) }] ∧
      (∀ n ∈ (LoginApp.authActionsRefreshSession (.thrown e3)).2,
        n.isLoading = none) ∧
      (LoginApp.jsThrownMessage e3 "세션 조회 실패" = "" → e3 = .error "")) := by
  refine ⟨⟨?_, LoginApp.jsOrStr_ne_empty _ _ (by decide)⟩,
          ⟨?_, LoginApp.jsThrownMessage_empty e _ (by decide)⟩,
          ⟨?_, LoginApp.jsOrStr_ne_empty _ _ (by decide)⟩,
          ⟨?_, LoginApp.jsThrownMessage_empty e2 _ (by decide)⟩,
          ⟨?_, ?_, LoginApp.jsThrownMessage_empty e3 _ (by decide)⟩⟩
  · simp [LoginApp.authActionsStartOAuth, hr]
  · simp [LoginApp.authActionsStartOAuth]
  · simp [LoginApp.authActionsSignOut, hr2]
  · simp [LoginApp.authActionsSignOut]
  · simp [LoginApp.authActionsRefreshSession]
  · intro n hn
    simp only [LoginApp.authActionsRefreshSession, List.mem_singleton] at hn
    rw [hn]

/-- C4 witness: the bridge-reported startOAuth failure conjunct evaluated at
a concrete failed result. -/
theorem LoginApp.c4_failure_notifications_witness :
    (LoginApp.authActionsStartOAuth "google" (.ok ⟨false, some "거부됨"⟩)).2.getLast? =
      some { isLoading := some false, isOAuthInProgress := some false,
             error := some (some (LoginApp.jsOrStr (some "거부됨") "OAuth 시작 실패")) } ∧
    LoginApp.jsOrStr (some "거부됨") "OAuth 시작 실패" ≠ "" :=
  (LoginApp.c4_failure_notifications "google" ⟨false, some "거부됨"⟩ ⟨false, none⟩
    .other .other .other rfl rfl).1
